import Mathlib

/-!
Verification of the weather-data collection and quality pipeline of the
Tobi-Capstone-Project repository.  The Python sources are shallowly embedded:
floats become `ℚ`, ints become `ℤ`, JSON fields become option-like types,
fallible operations return `Option`/`Except`, and wall-clock time is an
explicit `ℚ` parameter.
-/

set_option autoImplicit false

namespace WeatherVerify

/-! ## Model of `weather_data_collector.py` -/

/-- A numeric field of the provider's JSON response as the Python code sees it:
the key may be absent (`missing`, a `KeyError` / `.get` default), present but of
a type that `float()` / `int()` rejects (`wrongType`, raising `ValueError` or
`TypeError`), or present with a numeric value. -/
inductive JNum where
  | missing
  | wrongType
  | val (q : ℚ)
deriving DecidableEq, Repr

/-- Python `int()` applied to a float truncates toward zero. -/
def pyInt (q : ℚ) : ℤ := if 0 ≤ q then ⌊q⌋ else ⌈q⌉

/-- `float(x)`: succeeds exactly on a present numeric value. -/
def JNum.toFloat : JNum → Option ℚ
  | .val q => some q
  | _ => none

/-- `int(x)`: succeeds exactly on a present numeric value, truncating. -/
def JNum.toInt : JNum → Option ℤ
  | .val q => some (pyInt q)
  | _ => none

/-- `float(d.get(key, default))`: a missing key takes the default, a present
key of the wrong type raises (fails). -/
def JNum.optFloat (default : ℚ) : JNum → Option ℚ
  | .missing => some default
  | .wrongType => none
  | .val q => some q

/-- `int(d.get(key, default))` with an integer default. -/
def JNum.optInt (default : ℤ) : JNum → Option ℤ
  | .missing => some default
  | .wrongType => none
  | .val q => some (pyInt q)

/-- The fields of the raw OpenWeatherMap response that
`_validate_and_clean_current_weather` reads.  String-valued fields undergo no
coercion in the source (any present value is stored as-is), so only their
presence matters and they are modelled as `Option String`. -/
structure RawWeatherData where
  name : Option String
  sys_country : Option String
  main_temp : JNum
  main_feels_like : JNum
  main_humidity : JNum
  main_pressure : JNum
  weather_main : Option String
  weather_description : Option String
  wind_speed : JNum
  wind_deg : JNum
  clouds_all : JNum
  visibility : JNum
  dt : JNum
deriving DecidableEq, Repr

/-- The cleaned reading built by `_validate_and_clean_current_weather`
(line 119-134 of `weather_data_collector.py`).  `timestamp` is the collection
wall-clock time (`datetime.now()`), passed in explicitly; `api_timestamp` is
the provider's `dt`. -/
structure CleanedData where
  timestamp : ℤ
  city : String
  country : String
  temperature : ℚ
  feels_like : ℚ
  humidity : ℤ
  pressure : ℚ
  weather_main : String
  weather_description : String
  wind_speed : ℚ
  wind_direction : ℤ
  cloudiness : ℤ
  visibility : ℤ
  api_timestamp : ℚ
deriving DecidableEq, Repr

/-- The field-extraction part of `_validate_and_clean_current_weather`: the
dictionary literal of lines 119-134, evaluated inside `try`.  Any `KeyError`,
`ValueError` or `TypeError` (a missing required field, or a value `float()` /
`int()` rejects) aborts the whole extraction. -/
def parse_current_weather (now : ℤ) (raw : RawWeatherData) : Option CleanedData := do
  let city ← raw.name
  let country ← raw.sys_country
  let temperature ← raw.main_temp.toFloat
  let feels_like ← raw.main_feels_like.toFloat
  let humidity ← raw.main_humidity.toInt
  let pressure ← raw.main_pressure.toFloat
  let wmain ← raw.weather_main
  let wdesc ← raw.weather_description
  let wind_speed ← raw.wind_speed.optFloat 0
  let wind_direction ← raw.wind_deg.optInt 0
  let cloudiness ← raw.clouds_all.toInt
  let vis ← raw.visibility.optInt 10000
  let api_timestamp ← raw.dt.toFloat
  pure { timestamp := now, city := city, country := country,
         temperature := temperature, feels_like := feels_like,
         humidity := humidity, pressure := pressure,
         weather_main := wmain, weather_description := wdesc,
         wind_speed := wind_speed, wind_direction := wind_direction,
         cloudiness := cloudiness, visibility := vis,
         api_timestamp := api_timestamp }

/-- `_validate_and_clean_current_weather` (lines 111-149): extract the fields,
then range-check temperature (`-50 <= t <= 60`) and humidity
(`0 <= h <= 100`); any failure discards the whole reading (returns `None`). -/
def validate_and_clean_current_weather (now : ℤ) (raw : RawWeatherData) :
    Option CleanedData :=
  match parse_current_weather now raw with
  | none => none
  | some c =>
    if -50 ≤ c.temperature ∧ c.temperature ≤ 60 then
      if 0 ≤ c.humidity ∧ c.humidity ≤ 100 then some c
      else none
    else none

/-- `get_current_weather` (lines 92-109): the HTTP layer yields either a raw
response (`some raw`) or nothing (request failed after retries, or a falsy
body); a raw response is validated and cleaned. -/
def get_current_weather (response : Option RawWeatherData) (now : ℤ) :
    Option CleanedData :=
  match response with
  | some raw => validate_and_clean_current_weather now raw
  | none => none

/-! ## Model of `weather_database.py` -/

/-- One row of the `collection_log` table. -/
structure LogEntry where
  timestamp : ℤ
  endpoint : String
  location_id : Option ℤ
  status : String
  error_message : Option String
  response_time_ms : Option ℤ
deriving DecidableEq, Repr

/-- The mutable database state: the append-only `weather_readings` and
`collection_log` tables. -/
structure DbState where
  weather_readings : List CleanedData
  collection_log : List LogEntry
deriving DecidableEq, Repr

/-- An `sqlite3.Error` raised by the underlying engine during a write. -/
inductive DbErr where
  | sqliteError
deriving DecidableEq, Repr

/-- `store_weather_reading` (lines 92-123): inside the unit of work the row is
inserted; an `sqlite3.Error` triggers rollback (the state is unchanged) and the
method returns `False`; otherwise the insert commits and it returns `True`.
`err` is the oracle saying whether the engine raises on this insert. -/
def store_weather_reading (db : DbState) (w : CleanedData) (err : Option DbErr) :
    Bool × DbState :=
  match err with
  | some _ => (false, db)
  | none => (true, { db with weather_readings := db.weather_readings ++ [w] })

/-- `get_recent_readings` (lines 125-137): rows for the given city and country
whose timestamp is within the last `hours` hours (timestamps in seconds),
ordered newest first. -/
def get_recent_readings (db : DbState) (city country : String) (now hours : ℤ) :
    List CleanedData :=
  (db.weather_readings.filter fun r =>
      r.city = city ∧ r.country = country ∧ now - hours * 3600 < r.timestamp).mergeSort
    fun a b => b.timestamp ≤ a.timestamp

/-- `log_collection_attempt` (lines 139-158): appends one row to
`collection_log`. -/
def log_collection_attempt (db : DbState) (now : ℤ) (endpoint : String)
    (location_id : Option ℤ) (status : String) (error_message : Option String)
    (response_time_ms : Option ℤ) : DbState :=
  { db with collection_log := db.collection_log ++
      [{ timestamp := now, endpoint := endpoint, location_id := location_id,
         status := status, error_message := error_message,
         response_time_ms := response_time_ms }] }

/-! ## Model of `weather_collector.py` (the collection orchestrator) -/

/-- A monitored location (one active row of the `locations` table). -/
structure Location where
  id : ℤ
  city : String
  country : String
deriving DecidableEq, Repr

/-- `collect_for_location` (lines 40-75): fetch the current weather for the
location; if a reading came back, store it and log `success` or
`storage_error`; if not, log `api_error`.  `fetch` abstracts
`collector.get_current_weather` (network plus validation) and `storeErr` is the
per-location storage-failure oracle. -/
def collect_for_location (fetch : Location → Option CleanedData)
    (storeErr : Location → Option DbErr) (now : ℤ) (db : DbState)
    (loc : Location) : DbState :=
  match fetch loc with
  | some w =>
    let r := store_weather_reading db w (storeErr loc)
    log_collection_attempt r.2 now "current_weather" (some loc.id)
      (if r.1 then "success" else "storage_error") none (some 0)
  | none =>
    log_collection_attempt db now "current_weather" (some loc.id) "api_error"
      (some "Failed to retrieve weather data") none

/-- `collect_all_locations` (lines 77-84): process every active location in
listing order (the 1-second pacing sleep does not affect the stored state). -/
def collect_all_locations (fetch : Location → Option CleanedData)
    (storeErr : Location → Option DbErr) (now : ℤ) (db : DbState)
    (locs : List Location) : DbState :=
  locs.foldl (collect_for_location fetch storeErr now) db

/-! ## Helper lemmas about the parse -/

/-- All fields the extraction unconditionally requires are present with
acceptable types. -/
def required_fields_ok (raw : RawWeatherData) : Bool :=
  raw.name.isSome && raw.sys_country.isSome && raw.main_temp.toFloat.isSome &&
  raw.main_feels_like.toFloat.isSome && raw.main_humidity.toInt.isSome &&
  raw.main_pressure.toFloat.isSome && raw.weather_main.isSome &&
  raw.weather_description.isSome && raw.clouds_all.toInt.isSome &&
  raw.dt.toFloat.isSome

/-- The accepted reading stays within the validated ranges. -/
def reading_in_range (r : CleanedData) : Prop :=
  -50 ≤ r.temperature ∧ r.temperature ≤ 60 ∧ 0 ≤ r.humidity ∧ r.humidity ≤ 100

instance (r : CleanedData) : Decidable (reading_in_range r) := by
  unfold reading_in_range; infer_instance

theorem pyInt_intCast (h : ℤ) : pyInt (h : ℚ) = h := by
  unfold pyInt
  split <;> simp

theorem bind_some_elim {α β : Type} {x : Option α} {f : α → Option β} {b : β}
    (h : (x >>= f) = some b) : ∃ a, x = some a ∧ f a = some b := by
  cases x with
  | none => cases h
  | some a => exact ⟨a, rfl, h⟩

theorem parse_fields {now : ℤ} {raw : RawWeatherData} {c : CleanedData}
    (hp : parse_current_weather now raw = some c) :
    required_fields_ok raw = true ∧
    raw.main_temp.toFloat = some c.temperature ∧
    raw.main_humidity.toInt = some c.humidity ∧
    raw.wind_speed.optFloat 0 = some c.wind_speed ∧
    raw.wind_deg.optInt 0 = some c.wind_direction ∧
    raw.visibility.optInt 10000 = some c.visibility := by
  unfold parse_current_weather at hp
  obtain ⟨city, e1, hp⟩ := bind_some_elim hp
  obtain ⟨country, e2, hp⟩ := bind_some_elim hp
  obtain ⟨t, e3, hp⟩ := bind_some_elim hp
  obtain ⟨fl, e4, hp⟩ := bind_some_elim hp
  obtain ⟨hum, e5, hp⟩ := bind_some_elim hp
  obtain ⟨pr, e6, hp⟩ := bind_some_elim hp
  obtain ⟨wmain, e7, hp⟩ := bind_some_elim hp
  obtain ⟨wdesc, e8, hp⟩ := bind_some_elim hp
  obtain ⟨ws, e9, hp⟩ := bind_some_elim hp
  obtain ⟨wdir, e10, hp⟩ := bind_some_elim hp
  obtain ⟨cl, e11, hp⟩ := bind_some_elim hp
  obtain ⟨vis, e12, hp⟩ := bind_some_elim hp
  obtain ⟨ats, e13, hp⟩ := bind_some_elim hp
  cases hp
  refine ⟨?_, e3, e5, e9, e10, e12⟩
  simp only [required_fields_ok, e1, e2, e3, e4, e5, e6, e7, e8, e11, e13,
    Option.isSome_some, Bool.and_self]

theorem validate_eq_some {now : ℤ} {raw : RawWeatherData} {c : CleanedData}
    (hv : validate_and_clean_current_weather now raw = some c) :
    parse_current_weather now raw = some c ∧ reading_in_range c := by
  unfold validate_and_clean_current_weather at hv
  split at hv
  · cases hv
  · next c0 hp =>
    split at hv
    · next h1 =>
      split at hv
      · next h2 =>
        cases hv
        exact ⟨hp, h1.1, h1.2, h2.1, h2.2⟩
      · cases hv
    · cases hv

/-- Readings stored by `collect_for_location` beyond the pre-existing ones
come from the fetch function. -/
theorem collect_for_location_readings
    (fetch : Location → Option CleanedData)
    (storeErr : Location → Option DbErr) (now : ℤ) (db : DbState)
    (loc : Location) (r : CleanedData)
    (hfetch : ∀ w, fetch loc = some w → reading_in_range w)
    (hr : r ∈ (collect_for_location fetch storeErr now db loc).weather_readings) :
    r ∈ db.weather_readings ∨ reading_in_range r := by
  unfold collect_for_location at hr
  cases hf : fetch loc with
  | none =>
    rw [hf] at hr
    exact Or.inl hr
  | some w =>
    rw [hf] at hr
    cases herr : storeErr loc with
    | none =>
      simp only [store_weather_reading, herr, log_collection_attempt,
        List.mem_append, List.mem_singleton] at hr
      rcases hr with hr | hr
      · exact Or.inl hr
      · subst hr; exact Or.inr (hfetch r hf)
    | some e =>
      simp only [store_weather_reading, herr, log_collection_attempt] at hr
      exact Or.inl hr

theorem collect_all_locations_readings
    (responses : Location → Option RawWeatherData)
    (storeErr : Location → Option DbErr) (now : ℤ) (db : DbState)
    (locs : List Location) (r : CleanedData)
    (hr : r ∈ (collect_all_locations
        (fun l => get_current_weather (responses l) now)
        storeErr now db locs).weather_readings) :
    r ∈ db.weather_readings ∨ reading_in_range r := by
  induction locs generalizing db with
  | nil => exact Or.inl hr
  | cons loc rest ih =>
    have hfetch : ∀ w,
        (fun l => get_current_weather (responses l) now) loc = some w →
        reading_in_range w := by
      intro w hw
      simp only [get_current_weather] at hw
      cases hresp : responses loc with
      | none => rw [hresp] at hw; cases hw
      | some raw =>
        rw [hresp] at hw
        exact (validate_eq_some hw).2
    have step := ih (collect_for_location
      (fun l => get_current_weather (responses l) now) storeErr now db loc) hr
    rcases step with h | h
    · exact collect_for_location_readings _ storeErr now db loc r hfetch h
    · exact Or.inr h

theorem mem_get_recent_readings {db : DbState} {city country : String}
    {now hours : ℤ} {r : CleanedData}
    (hr : r ∈ get_recent_readings db city country now hours) :
    r ∈ db.weather_readings := by
  unfold get_recent_readings at hr
  exact List.mem_of_mem_filter ((List.mergeSort_perm _ _).mem_iff.mp hr)

/-! ## Claim theorems: C1 and C10 -/

/-- C1: a raw response whose parsed temperature lies outside [-50, 60] or whose
parsed humidity lies outside [0, 100] yields no reading from
`get_current_weather` (the whole reading is discarded), so such a reading is
never stored in `weather_readings` by the collection orchestrator and never
appears in `get_recent_readings`: every reading accepted by validation, every
newly stored reading, and every recent reading traceable to collection is in
range. -/
theorem c1_out_of_range_reading_discarded :
    (∀ (now : ℤ) (raw : RawWeatherData) (c : CleanedData),
        validate_and_clean_current_weather now raw = some c → reading_in_range c) ∧
    (∀ (now : ℤ) (raw : RawWeatherData) (t : ℚ), raw.main_temp = JNum.val t →
        t < -50 ∨ 60 < t → get_current_weather (some raw) now = none) ∧
    (∀ (now : ℤ) (raw : RawWeatherData) (h : ℤ),
        raw.main_humidity = JNum.val (h : ℚ) →
        h < 0 ∨ 100 < h → get_current_weather (some raw) now = none) ∧
    (∀ (responses : Location → Option RawWeatherData)
        (storeErr : Location → Option DbErr) (now : ℤ) (db : DbState)
        (locs : List Location) (r : CleanedData),
        r ∈ (collect_all_locations
            (fun l => get_current_weather (responses l) now)
            storeErr now db locs).weather_readings →
        r ∈ db.weather_readings ∨ reading_in_range r) ∧
    (∀ (responses : Location → Option RawWeatherData)
        (storeErr : Location → Option DbErr) (now : ℤ) (db : DbState)
        (locs : List Location) (city country : String) (t0 hrs : ℤ)
        (r : CleanedData),
        r ∈ get_recent_readings (collect_all_locations
            (fun l => get_current_weather (responses l) now)
            storeErr now db locs) city country t0 hrs →
        r ∈ db.weather_readings ∨ reading_in_range r) := by
  have hkey : ∀ (now : ℤ) (raw : RawWeatherData) (c : CleanedData),
      validate_and_clean_current_weather now raw = some c → reading_in_range c :=
    fun now raw c hv => (validate_eq_some hv).2
  refine ⟨hkey, ?_, ?_, collect_all_locations_readings, ?_⟩
  · intro now raw t ht hout
    show validate_and_clean_current_weather now raw = none
    cases hv : validate_and_clean_current_weather now raw with
    | none => rfl
    | some c =>
      exfalso
      obtain ⟨hp, hin⟩ := validate_eq_some hv
      have hfield := (parse_fields hp).2.1
      rw [ht] at hfield
      simp only [JNum.toFloat, Option.some.injEq] at hfield
      unfold reading_in_range at hin
      obtain ⟨hA, hB, hC, hD⟩ := hin
      rcases hout with hlt | hgt <;> linarith
  · intro now raw h hh hout
    show validate_and_clean_current_weather now raw = none
    cases hv : validate_and_clean_current_weather now raw with
    | none => rfl
    | some c =>
      exfalso
      obtain ⟨hp, hin⟩ := validate_eq_some hv
      have hfield := (parse_fields hp).2.2.1
      rw [hh] at hfield
      simp only [JNum.toInt, pyInt_intCast, Option.some.injEq] at hfield
      unfold reading_in_range at hin
      obtain ⟨hA, hB, hC, hD⟩ := hin
      rcases hout with hlt | hgt <;> omega
  · intro responses storeErr now db locs city country t0 hrs r hr
    exact collect_all_locations_readings responses storeErr now db locs r
      (mem_get_recent_readings hr)

/-- A concrete raw response with an absurd temperature, used by witnesses. -/
def sample_hot_raw : RawWeatherData :=
  { name := some "Lagos", sys_country := some "NG",
    main_temp := JNum.val 1000, main_feels_like := JNum.val 1000,
    main_humidity := JNum.val 40, main_pressure := JNum.val 1013,
    weather_main := some "Clear", weather_description := some "clear sky",
    wind_speed := JNum.val 3, wind_deg := JNum.val 120,
    clouds_all := JNum.val 0, visibility := JNum.val 10000,
    dt := JNum.val 1700000000 }

theorem c1_witness :
    get_current_weather (some sample_hot_raw) 0 = none :=
  c1_out_of_range_reading_discarded.2.1 0 sample_hot_raw 1000 rfl
    (Or.inr (by norm_num))

/-- C10: a provider response missing a required field, or carrying a value the
numeric coercions reject, makes `get_current_weather` return no reading rather
than propagate the exception; a missing optional field does not fail the
reading but takes its default (wind speed 0, wind direction 0, visibility
10000). -/
theorem c10_missing_fields_defaults :
    (∀ (now : ℤ) (raw : RawWeatherData), required_fields_ok raw = false →
        get_current_weather (some raw) now = none) ∧
    (∀ (now : ℤ) (raw : RawWeatherData) (c : CleanedData),
        validate_and_clean_current_weather now raw = some c →
        (raw.wind_speed = JNum.missing → c.wind_speed = 0) ∧
        (raw.wind_deg = JNum.missing → c.wind_direction = 0) ∧
        (raw.visibility = JNum.missing → c.visibility = 10000)) ∧
    (∀ (now : ℤ) (city country wmain wdesc : String) (t fl p cl dtv : ℚ)
        (h : ℤ) (raw : RawWeatherData),
        raw = { name := some city, sys_country := some country,
                main_temp := JNum.val t, main_feels_like := JNum.val fl,
                main_humidity := JNum.val (h : ℚ), main_pressure := JNum.val p,
                weather_main := some wmain, weather_description := some wdesc,
                wind_speed := JNum.missing, wind_deg := JNum.missing,
                clouds_all := JNum.val cl, visibility := JNum.missing,
                dt := JNum.val dtv } →
        -50 ≤ t → t ≤ 60 → 0 ≤ h → h ≤ 100 →
        get_current_weather (some raw) now =
          some { timestamp := now, city := city, country := country,
                 temperature := t, feels_like := fl, humidity := h,
                 pressure := p, weather_main := wmain,
                 weather_description := wdesc, wind_speed := 0,
                 wind_direction := 0, cloudiness := pyInt cl,
                 visibility := 10000, api_timestamp := dtv }) := by
  refine ⟨?_, ?_, ?_⟩
  · intro now raw hreq
    show validate_and_clean_current_weather now raw = none
    cases hv : validate_and_clean_current_weather now raw with
    | none => rfl
    | some c =>
      have := (parse_fields (validate_eq_some hv).1).1
      rw [hreq] at this
      cases this
  · intro now raw c hv
    obtain ⟨hreq, ht, hh, hws, hwd, hvis⟩ := parse_fields (validate_eq_some hv).1
    refine ⟨?_, ?_, ?_⟩
    · intro hmiss; rw [hmiss] at hws
      simp only [JNum.optFloat, Option.some.injEq] at hws
      exact hws.symm
    · intro hmiss; rw [hmiss] at hwd
      simp only [JNum.optInt, Option.some.injEq] at hwd
      exact hwd.symm
    · intro hmiss; rw [hmiss] at hvis
      simp only [JNum.optInt, Option.some.injEq] at hvis
      exact hvis.symm
  · intro now city country wmain wdesc t fl p cl dtv h raw hraw h1 h2 h3 h4
    subst hraw
    simp only [get_current_weather, validate_and_clean_current_weather,
      parse_current_weather, bind, Option.some_bind, JNum.toFloat, JNum.toInt,
      JNum.optFloat, JNum.optInt, Option.pure_def, pyInt_intCast]
    rw [if_pos ⟨h1, h2⟩, if_pos ⟨h3, h4⟩]

/-- A concrete complete raw response with the optional fields absent. -/
def sample_min_raw : RawWeatherData :=
  { name := some "Lagos", sys_country := some "NG",
    main_temp := JNum.val 30, main_feels_like := JNum.val 33,
    main_humidity := JNum.val 70, main_pressure := JNum.val 1012,
    weather_main := some "Clouds", weather_description := some "few clouds",
    wind_speed := JNum.missing, wind_deg := JNum.missing,
    clouds_all := JNum.val 20, visibility := JNum.missing,
    dt := JNum.val 1700000000 }

theorem c10_witness :
    get_current_weather (some sample_min_raw) 5 =
      some { timestamp := 5, city := "Lagos", country := "NG",
             temperature := 30, feels_like := 33, humidity := 70,
             pressure := 1012, weather_main := "Clouds",
             weather_description := "few clouds", wind_speed := 0,
             wind_direction := 0, cloudiness := 20, visibility := 10000,
             api_timestamp := 1700000000 } := by
  have := c10_missing_fields_defaults.2.2 5 "Lagos" "NG" "Clouds" "few clouds"
    30 33 1012 20 1700000000 70 sample_min_raw (by norm_num [sample_min_raw])
    (by norm_num) (by norm_num) (by norm_num) (by norm_num)
  rw [this]
  norm_num [pyInt]

/-! ## Claim theorems: C9 (store fails closed) -/

/-- C9: when the underlying engine raises a constraint or I/O error
(`sqlite3.Error`), `store_weather_reading` returns `False` with the state
rolled back instead of raising; on success it returns `True` and appends the
reading. -/
theorem c9_store_reading_fails_closed (db : DbState) (w : CleanedData)
    (err : Option DbErr) :
    (err ≠ none → store_weather_reading db w err = (false, db)) ∧
    (err = none → store_weather_reading db w err =
      (true, { db with weather_readings := db.weather_readings ++ [w] })) := by
  cases err <;> simp [store_weather_reading]

/-- A concrete stored reading, used by witnesses. -/
def sample_reading : CleanedData :=
  { timestamp := 100, city := "Lagos", country := "NG", temperature := 30,
    feels_like := 33, humidity := 70, pressure := 1012,
    weather_main := "Clouds", weather_description := "few clouds",
    wind_speed := 2, wind_direction := 90, cloudiness := 20,
    visibility := 10000, api_timestamp := 95 }

theorem c9_witness :
    store_weather_reading { weather_readings := [], collection_log := [] }
      sample_reading (some DbErr.sqliteError) =
      (false, { weather_readings := [], collection_log := [] }) :=
  (c9_store_reading_fails_closed
    { weather_readings := [], collection_log := [] } sample_reading
    (some DbErr.sqliteError)).1 (by simp)

/-! ## Claim theorems: C3 (one failing location in a batch) -/

theorem collect_step_some (fetch : Location → Option CleanedData) (now : ℤ)
    (db : DbState) (loc : Location) (w : CleanedData) (hf : fetch loc = some w) :
    collect_for_location fetch (fun _ => none) now db loc =
      { weather_readings := db.weather_readings ++ [w],
        collection_log := db.collection_log ++
          [{ timestamp := now, endpoint := "current_weather",
             location_id := some loc.id, status := "success",
             error_message := none, response_time_ms := some 0 }] } := by
  unfold collect_for_location
  rw [hf]
  rfl

theorem collect_step_none (fetch : Location → Option CleanedData) (now : ℤ)
    (db : DbState) (loc : Location) (hf : fetch loc = none) :
    collect_for_location fetch (fun _ => none) now db loc =
      { weather_readings := db.weather_readings,
        collection_log := db.collection_log ++
          [{ timestamp := now, endpoint := "current_weather",
             location_id := some loc.id, status := "api_error",
             error_message := some "Failed to retrieve weather data",
             response_time_ms := none }] } := by
  unfold collect_for_location
  rw [hf]
  rfl

theorem countP_isSome_add_isNone {α β : Type} (f : α → Option β) (l : List α) :
    l.countP (fun a => (f a).isSome) + l.countP (fun a => (f a).isNone)
      = l.length := by
  induction l with
  | nil => rfl
  | cons a t ih =>
    rw [List.countP_cons, List.countP_cons, List.length_cons]
    cases f a <;> simp <;> omega

/-- Per-run accounting for a batch in which storage never fails: one log entry
per location, one stored reading and one `success` entry per fetched reading,
one `api_error` entry per failed fetch. -/
theorem collect_all_stats (fetch : Location → Option CleanedData) (now : ℤ)
    (locs : List Location) : ∀ db : DbState,
    (collect_all_locations fetch (fun _ => none) now db locs).collection_log.length
        = db.collection_log.length + locs.length ∧
    (collect_all_locations fetch (fun _ => none) now db locs).weather_readings.length
        = db.weather_readings.length + locs.countP (fun l => (fetch l).isSome) ∧
    (collect_all_locations fetch (fun _ => none) now db
          locs).collection_log.countP (fun e => e.status == "api_error")
        = db.collection_log.countP (fun e => e.status == "api_error") +
            locs.countP (fun l => (fetch l).isNone) ∧
    (collect_all_locations fetch (fun _ => none) now db
          locs).collection_log.countP (fun e => e.status == "success")
        = db.collection_log.countP (fun e => e.status == "success") +
            locs.countP (fun l => (fetch l).isSome) := by
  induction locs with
  | nil => intro db; simp [collect_all_locations]
  | cons loc rest ih =>
    intro db
    have hfold : collect_all_locations fetch (fun _ => none) now db (loc :: rest)
        = collect_all_locations fetch (fun _ => none) now
            (collect_for_location fetch (fun _ => none) now db loc) rest := rfl
    cases hf : fetch loc with
    | some w =>
      obtain ⟨ih1, ih2, ih3, ih4⟩ :=
        ih (collect_for_location fetch (fun _ => none) now db loc)
      rw [collect_step_some fetch now db loc w hf] at ih1 ih2 ih3 ih4
      rw [hfold, collect_step_some fetch now db loc w hf]
      refine ⟨?_, ?_, ?_, ?_⟩ <;>
        simp_all [List.countP_cons, List.countP_append] <;> omega
    | none =>
      obtain ⟨ih1, ih2, ih3, ih4⟩ :=
        ih (collect_for_location fetch (fun _ => none) now db loc)
      rw [collect_step_none fetch now db loc hf] at ih1 ih2 ih3 ih4
      rw [hfold, collect_step_none fetch now db loc hf]
      refine ⟨?_, ?_, ?_, ?_⟩ <;>
        simp_all [List.countP_cons, List.countP_append] <;> omega

/-- C3: a run of `collect_all_locations` over N active locations in which
exactly one location yields no reading and every other one succeeds (and
storage succeeds) writes exactly N collection-log entries — with exactly one
`api_error` entry and N-1 `success` entries — and stores exactly N-1 readings.
In the embedding every branch of `collect_for_location` ends in a log write
and no branch propagates an error, so the batch never raises outward. -/
theorem c3_batch_one_api_failure (fetch : Location → Option CleanedData)
    (now : ℤ) (db : DbState) (locs : List Location)
    (hone : locs.countP (fun l => (fetch l).isNone) = 1) :
    (collect_all_locations fetch (fun _ => none) now db locs).collection_log.length
        = db.collection_log.length + locs.length ∧
    (collect_all_locations fetch (fun _ => none) now db locs).weather_readings.length
        = db.weather_readings.length + (locs.length - 1) ∧
    (collect_all_locations fetch (fun _ => none) now db
          locs).collection_log.countP (fun e => e.status == "api_error")
        = db.collection_log.countP (fun e => e.status == "api_error") + 1 ∧
    (collect_all_locations fetch (fun _ => none) now db
          locs).collection_log.countP (fun e => e.status == "success")
        = db.collection_log.countP (fun e => e.status == "success") +
            (locs.length - 1) := by
  obtain ⟨h1, h2, h3, h4⟩ := collect_all_stats fetch now locs db
  have hsum := countP_isSome_add_isNone fetch locs
  refine ⟨h1, ?_, ?_, ?_⟩
  · rw [h2]; omega
  · rw [h3, hone]
  · rw [h4]; omega

/-- Three concrete locations for the witness batch. -/
def loc_a : Location := { id := 1, city := "Lagos", country := "NG" }

def loc_b : Location := { id := 2, city := "Abuja", country := "NG" }

def loc_c : Location := { id := 3, city := "Kano", country := "NG" }

/-- A fetch in which only `loc_b` fails. -/
def sample_fetch (l : Location) : Option CleanedData :=
  if l = loc_b then none else some sample_reading

theorem c3_witness :
    (collect_all_locations sample_fetch (fun _ => none) 0
        { weather_readings := [], collection_log := [] }
        [loc_a, loc_b, loc_c]).collection_log.length = 0 + 3 ∧
    (collect_all_locations sample_fetch (fun _ => none) 0
        { weather_readings := [], collection_log := [] }
        [loc_a, loc_b, loc_c]).weather_readings.length = 0 + (3 - 1) ∧
    (collect_all_locations sample_fetch (fun _ => none) 0
        { weather_readings := [], collection_log := [] }
        [loc_a, loc_b, loc_c]).collection_log.countP
          (fun e => e.status == "api_error") = 0 + 1 ∧
    (collect_all_locations sample_fetch (fun _ => none) 0
        { weather_readings := [], collection_log := [] }
        [loc_a, loc_b, loc_c]).collection_log.countP
          (fun e => e.status == "success") = 0 + (3 - 1) := by
  have := c3_batch_one_api_failure sample_fetch 0
    { weather_readings := [], collection_log := [] } [loc_a, loc_b, loc_c]
    (by decide)
  simpa using this

/-! ## Model of the rate limiter (`_respect_rate_limit`, lines 30-40) -/

/-- Idealized timing of one `_respect_rate_limit` call: invoked at wall-clock
time `now` with the previous request recorded at `last`, the method sleeps
`min_request_interval - (now - last)` when too little time has elapsed, so the
request goes out — and `last_request_time` is updated — at `last + interval`;
otherwise it goes out immediately at `now`. -/
def respect_rate_limit (interval last now : ℚ) : ℚ :=
  if now - last < interval then last + interval else now

/-- Issue times of successive requests whose calls arrive at the given
wall-clock times, threading `last_request_time` from `last`. -/
def request_times (interval : ℚ) : ℚ → List ℚ → List ℚ
  | _, [] => []
  | last, now :: rest =>
    respect_rate_limit interval last now ::
      request_times interval (respect_rate_limit interval last now) rest

theorem respect_rate_limit_ge (interval last now : ℚ) :
    last + interval ≤ respect_rate_limit interval last now := by
  unfold respect_rate_limit
  split
  · exact le_refl _
  · linarith [not_lt.mp (by assumption : ¬now - last < interval)]

theorem request_times_sep (interval : ℚ) (arrivals : List ℚ) : ∀ last : ℚ,
    (request_times interval last arrivals).Chain' fun a b => a + interval ≤ b := by
  induction arrivals with
  | nil => intro last; simp [request_times]
  | cons now rest ih =>
    intro last
    cases rest with
    | nil => simp [request_times]
    | cons now2 rest2 =>
      rw [request_times, request_times, List.chain'_cons]
      constructor
      · exact respect_rate_limit_ge interval (respect_rate_limit interval last now) now2
      · have h := ih (respect_rate_limit interval last now)
        rw [request_times] at h
        exact h

/-- C2: however fast the calls arrive, consecutive requests issued through
`_respect_rate_limit` by one client instance are separated by at least the
configured minimum interval, and a call arriving sooner than the interval is
blocked (slept) exactly until the interval since the previous request has
elapsed. -/
theorem c2_min_interval_enforced (interval start : ℚ) (arrivals : List ℚ) :
    (∀ last now : ℚ, now - last < interval →
        respect_rate_limit interval last now = last + interval) ∧
    (request_times interval start arrivals).Chain' fun a b => a + interval ≤ b := by
  constructor
  · intro last now h
    unfold respect_rate_limit
    rw [if_pos h]
  · exact request_times_sep interval arrivals start

theorem c2_witness :
    respect_rate_limit 1 0 (1/2) = 0 + 1 ∧
    (request_times 1 0 [1/2, 3/5, 7/10]).Chain' fun a b => a + 1 ≤ b :=
  ⟨(c2_min_interval_enforced 1 0 []).1 0 (1/2) (by norm_num),
   (c2_min_interval_enforced 1 0 [1/2, 3/5, 7/10]).2⟩

/-! ## Model of the retry loop (`_make_api_request`, lines 53-90) -/

/-- One attempt's outcome at the HTTP layer: a 200 response with a parsed
body, a non-200 status code, or a `requests.exceptions.RequestException`. -/
inductive HttpResp (α : Type) where
  | ok (body : α)
  | code (status : ℕ)
  | netError
deriving DecidableEq, Repr

/-- What a full `_make_api_request` run did: the returned value, how many
attempts were made, and the sleeps performed in order (in seconds). -/
structure ApiOutcome (α : Type) where
  result : Option α
  attempts : ℕ
  sleeps : List ℚ
deriving DecidableEq, Repr

def retry_delays : List ℚ := [1, 2, 4]

def max_retries : ℕ := 3

/-- The retry loop of `_make_api_request`: `resp i` is the response the
`i`-th attempt (0-based) would receive, `a` the current loop index.
200 returns the body; 429 sleeps 60 s and `continue`s (skipping the backoff
sleep at the bottom of the loop); 401 returns `None` at once; any other status
or a request exception falls through to the backoff sleep
(`retry_delays[a]`, skipped on the last attempt) and the next iteration.
Exhausting the loop returns `None`. -/
def make_api_request {α : Type} (resp : ℕ → HttpResp α) (a : ℕ) : ApiOutcome α :=
  if _h : a < max_retries then
    match resp a with
    | .ok b => { result := some b, attempts := a + 1, sleeps := [] }
    | .code s =>
      if s = 429 then
        let rest := make_api_request resp (a + 1)
        { result := rest.result, attempts := rest.attempts,
          sleeps := 60 :: rest.sleeps }
      else if s = 401 then { result := none, attempts := a + 1, sleeps := [] }
      else
        let rest := make_api_request resp (a + 1)
        { result := rest.result, attempts := rest.attempts,
          sleeps := (if a < max_retries - 1 then [retry_delays.getD a 0]
            else []) ++ rest.sleeps }
    | .netError =>
      let rest := make_api_request resp (a + 1)
      { result := rest.result, attempts := rest.attempts,
        sleeps := (if a < max_retries - 1 then [retry_delays.getD a 0]
          else []) ++ rest.sleeps }
  else { result := none, attempts := a, sleeps := [] }
termination_by max_retries - a
decreasing_by all_goals omega

theorem make_api_request_429 {α : Type} (resp : ℕ → HttpResp α) (a : ℕ)
    (ha : a < max_retries) (hr : resp a = HttpResp.code 429) :
    make_api_request resp a =
      { result := (make_api_request resp (a + 1)).result,
        attempts := (make_api_request resp (a + 1)).attempts,
        sleeps := 60 :: (make_api_request resp (a + 1)).sleeps } := by
  rw [make_api_request]
  rw [dif_pos ha, hr]
  simp

theorem make_api_request_401 {α : Type} (resp : ℕ → HttpResp α) (a : ℕ)
    (ha : a < max_retries) (hr : resp a = HttpResp.code 401) :
    make_api_request resp a = { result := none, attempts := a + 1, sleeps := [] } := by
  rw [make_api_request, dif_pos ha, hr]
  rfl

theorem make_api_request_backoff {α : Type} (resp : ℕ → HttpResp α) (a s : ℕ)
    (ha : a < max_retries) (hr : resp a = HttpResp.code s)
    (h429 : s ≠ 429) (h401 : s ≠ 401) (hlast : a < max_retries - 1) :
    make_api_request resp a =
      { result := (make_api_request resp (a + 1)).result,
        attempts := (make_api_request resp (a + 1)).attempts,
        sleeps := retry_delays.getD a 0 ::
          (make_api_request resp (a + 1)).sleeps } := by
  rw [make_api_request, dif_pos ha, hr]
  simp [if_neg h429, if_neg h401, if_pos hlast]

theorem make_api_request_ok_attempt {α : Type} (resp : ℕ → HttpResp α) (b : α) :
    ∀ (n a : ℕ), max_retries - a ≤ n →
      (make_api_request resp a).result = some b →
      ∃ i, i < max_retries ∧ resp i = HttpResp.ok b := by
  intro n
  induction n with
  | zero =>
    intro a hn hsome
    rw [make_api_request, dif_neg (by omega)] at hsome
    cases hsome
  | succ n ih =>
    intro a hn hsome
    by_cases ha : a < max_retries
    · rw [make_api_request, dif_pos ha] at hsome
      cases hr : resp a with
      | ok b0 =>
        rw [hr] at hsome
        have hb : b0 = b := Option.some.inj hsome
        exact ⟨a, ha, by rw [hr, hb]⟩
      | code s =>
        rw [hr] at hsome
        by_cases h429 : s = 429
        · subst h429
          exact ih (a + 1) (by omega) hsome
        · by_cases h401 : s = 401
          · subst h401
            exact Option.noConfusion hsome
          · have hsome2 : (make_api_request resp (a + 1)).result = some b := by
              simp only [if_neg h429, if_neg h401] at hsome
              exact hsome
            exact ih (a + 1) (by omega) hsome2
      | netError =>
        rw [hr] at hsome
        exact ih (a + 1) (by omega) hsome
    · rw [make_api_request, dif_neg ha] at hsome
      exact Option.noConfusion hsome

theorem make_api_request_exhaust {α : Type} (resp : ℕ → HttpResp α)
    (hfail : ∀ i, i < max_retries →
      (∀ b, resp i ≠ HttpResp.ok b) ∧ resp i ≠ HttpResp.code 401) :
    ∀ (n a : ℕ), max_retries - a ≤ n → a ≤ max_retries →
      (make_api_request resp a).result = none ∧
      (make_api_request resp a).attempts = max_retries := by
  intro n
  induction n with
  | zero =>
    intro a hn ha
    rw [make_api_request, dif_neg (by omega)]
    exact ⟨rfl, by show a = max_retries; omega⟩
  | succ n ih =>
    intro a hn ha
    by_cases hlt : a < max_retries
    · obtain ⟨hok, hauth⟩ := hfail a hlt
      rw [make_api_request, dif_pos hlt]
      cases hr : resp a with
      | ok b0 => exact absurd hr (hok b0)
      | code s =>
        by_cases h429 : s = 429
        · subst h429
          exact ih (a + 1) (by omega) (by omega)
        · by_cases h401 : s = 401
          · subst h401
            exact absurd hr hauth
          · have h2 := ih (a + 1) (by omega) (by omega)
            simp only [if_neg h429, if_neg h401]
            exact h2
      | netError => exact ih (a + 1) (by omega) (by omega)
    · rw [make_api_request, dif_neg hlt]
      exact ⟨rfl, by show a = max_retries; omega⟩

/-- C4: per request attempt — HTTP 429 sleeps 60 s and retries, consuming one
of the at most 3 attempts but performing no exponential-backoff sleep; any
other retryable non-200 status performs the backoff sleep
(`retry_delays[attempt]`) before the retry; HTTP 401 fails immediately with no
retry and no sleep; a successful result can only come from an attempt that
returned 200; and when every attempt fails retryably the call returns no
partial result after exactly 3 attempts. -/
theorem c4_http_status_policy :
    (∀ (α : Type) (resp : ℕ → HttpResp α) (a : ℕ), a < max_retries →
        resp a = HttpResp.code 429 →
        make_api_request resp a =
          { result := (make_api_request resp (a + 1)).result,
            attempts := (make_api_request resp (a + 1)).attempts,
            sleeps := 60 :: (make_api_request resp (a + 1)).sleeps }) ∧
    (∀ (α : Type) (resp : ℕ → HttpResp α) (a s : ℕ), a < max_retries →
        resp a = HttpResp.code s → s ≠ 429 → s ≠ 401 → a < max_retries - 1 →
        make_api_request resp a =
          { result := (make_api_request resp (a + 1)).result,
            attempts := (make_api_request resp (a + 1)).attempts,
            sleeps := retry_delays.getD a 0 ::
              (make_api_request resp (a + 1)).sleeps }) ∧
    (∀ (α : Type) (resp : ℕ → HttpResp α) (a : ℕ), a < max_retries →
        resp a = HttpResp.code 401 →
        make_api_request resp a =
          { result := none, attempts := a + 1, sleeps := [] }) ∧
    (∀ (α : Type) (resp : ℕ → HttpResp α) (b : α),
        (make_api_request resp 0).result = some b →
        ∃ i, i < max_retries ∧ resp i = HttpResp.ok b) ∧
    (∀ (α : Type) (resp : ℕ → HttpResp α),
        (∀ i, i < max_retries →
          (∀ b, resp i ≠ HttpResp.ok b) ∧ resp i ≠ HttpResp.code 401) →
        (make_api_request resp 0).result = none ∧
        (make_api_request resp 0).attempts = max_retries) := by
  refine ⟨?_, ?_, ?_, ?_, ?_⟩
  · intro α resp a ha hr
    exact make_api_request_429 resp a ha hr
  · intro α resp a s ha hr h429 h401 hlast
    exact make_api_request_backoff resp a s ha hr h429 h401 hlast
  · intro α resp a ha hr
    exact make_api_request_401 resp a ha hr
  · intro α resp b hsome
    exact make_api_request_ok_attempt resp b max_retries 0 (by omega) hsome
  · intro α resp hfail
    exact make_api_request_exhaust resp hfail max_retries 0 (by omega) (by omega)

/-- The spec scenario: rate-limited on the first attempt, success on the
second. -/
def resp_rate_limited (i : ℕ) : HttpResp ℕ :=
  if i = 0 then HttpResp.code 429 else HttpResp.ok 7

theorem c4_witness :
    make_api_request resp_rate_limited 0 =
      { result := (make_api_request resp_rate_limited 1).result,
        attempts := (make_api_request resp_rate_limited 1).attempts,
        sleeps := 60 :: (make_api_request resp_rate_limited 1).sleeps } :=
  c4_http_status_policy.1 ℕ resp_rate_limited 0 (by norm_num [max_retries]) rfl

/-! ## Model of the comfort index (`weatherdataprocessor.py` lines 340-349) -/

/-- `calculate_comfort_index`: three linear comfort terms peaking at 22.5 °C,
50 % and 2 m/s, combined with weights 0.5/0.3/0.2, and only the combined
result clamped to [0, 100] (`max(0, min(100, comfort))`). -/
def calculate_comfort_index (temp humidity wind_speed : ℚ) : ℚ :=
  let temp_comfort := 100 - |temp - 22.5| * 4
  let humidity_comfort := 100 - |humidity - 50| * 2
  let wind_comfort := 100 - |wind_speed - 2| * 10
  let comfort := temp_comfort * 0.5 + humidity_comfort * 0.3 + wind_comfort * 0.2
  max 0 (min 100 comfort)

/-- The comfort index as C7 words it: each individual term additionally
clamped to [0, 100] before the weighted combination. -/
def comfort_index_termwise_clamped (temp humidity wind_speed : ℚ) : ℚ :=
  let temp_comfort := max 0 (min 100 (100 - |temp - 22.5| * 4))
  let humidity_comfort := max 0 (min 100 (100 - |humidity - 50| * 2))
  let wind_comfort := max 0 (min 100 (100 - |wind_speed - 2| * 10))
  let comfort := temp_comfort * 0.5 + humidity_comfort * 0.3 + wind_comfort * 0.2
  max 0 (min 100 comfort)

/-- C7 counterexample: at temperature 100 °C, humidity 50 %, wind 2 m/s the
code yields 0, while the claimed per-term clamping would yield 50 — the
individual terms are not clamped before combination. -/
theorem c7_counterexample :
    calculate_comfort_index 100 50 2 = 0 ∧
    comfort_index_termwise_clamped 100 50 2 = 50 ∧
    calculate_comfort_index 100 50 2 ≠ comfort_index_termwise_clamped 100 50 2 := by
  refine ⟨?_, ?_, ?_⟩ <;>
    norm_num [calculate_comfort_index, comfort_index_termwise_clamped,
      abs_of_nonneg, abs_of_nonpos]

/-- C7 amended: the comfort index is the weighted combination of the three
unclamped terms with only the final result clamped to [0, 100]; it always
lies in [0, 100] and equals 100 exactly at the peak (22.5 °C, 50 %, 2 m/s). -/
theorem c7_comfort_index_final_clamp (temp humidity wind_speed : ℚ) :
    calculate_comfort_index temp humidity wind_speed =
      max 0 (min 100 ((100 - |temp - 22.5| * 4) * 0.5 +
        (100 - |humidity - 50| * 2) * 0.3 +
        (100 - |wind_speed - 2| * 10) * 0.2)) ∧
    0 ≤ calculate_comfort_index temp humidity wind_speed ∧
    calculate_comfort_index temp humidity wind_speed ≤ 100 ∧
    calculate_comfort_index 22.5 50 2 = 100 := by
  refine ⟨rfl, le_max_left 0 _, ?_, ?_⟩
  · exact max_le (by norm_num) (min_le_left 100 _)
  · norm_num [calculate_comfort_index]

/-! ## Model of `DataQualityMonitor` (`weatherdataprocessor.py` lines 639-688) -/

/-- Per-column missing-value statistics of a quality report. -/
structure MissingInfo where
  count : ℕ
  percentage : ℚ
deriving DecidableEq, Repr

/-- The part of the quality report `check_quality_alerts` reads: record count,
per-column missing statistics, per-field impossible-value counts, the
duplicate count, and the detected gap durations in seconds. -/
structure QualityReport where
  total_records : ℕ
  missing_values : List (String × MissingInfo)
  impossible_values : List (String × ℕ)
  duplicates : ℕ
  data_gaps : List ℚ
deriving DecidableEq, Repr

/-- The fixed `quality_thresholds` table set in `DataQualityMonitor.__init__`,
whose comments read: alert if more than 10 % missing, more than 1 % impossible
values, more than 0.5 % duplicates, gaps longer than 3 hours. -/
structure QualityThresholds where
  missing_data_percent : ℚ
  impossible_values_percent : ℚ
  duplicate_percent : ℚ
  data_gap_hours : ℚ
deriving DecidableEq, Repr

def default_quality_thresholds : QualityThresholds :=
  { missing_data_percent := 10, impossible_values_percent := 1,
    duplicate_percent := 1/2, data_gap_hours := 3 }

/-- An emitted alert (the human-readable message text is elided: it is a
formatted string carrying no further information). -/
structure Alert where
  type : String
  severity : String
deriving DecidableEq, Repr

/-- `check_quality_alerts` (lines 653-688): alert on the summed missing-value
percentage, on the impossible-value percentage, and on gaps longer than the
threshold.  The `duplicate_percent` threshold is configured but never
consulted anywhere in the function. -/
def check_quality_alerts (report : QualityReport) : List Alert :=
  let ths := default_quality_thresholds
  let total_missing := (report.missing_values.map (fun kv => kv.2.percentage)).sum
  let missing_alerts :=
    if ths.missing_data_percent < total_missing then
      [{ type := "missing_data", severity := "warning" }] else []
  let total_impossible := (report.impossible_values.map (fun kv => kv.2)).sum
  let impossible_percent :=
    ((total_impossible : ℚ) / (report.total_records : ℚ)) * 100
  let impossible_alerts :=
    if ths.impossible_values_percent < impossible_percent then
      [{ type := "impossible_values", severity := "error" }] else []
  let large_gaps := report.data_gaps.filter
    fun d => decide (ths.data_gap_hours < d / 3600)
  let gap_alerts :=
    if large_gaps.isEmpty then [] else
      [{ type := "data_gaps", severity := "warning" }]
  missing_alerts ++ impossible_alerts ++ gap_alerts

/-- A report whose only quality problem is a massive duplicate rate. -/
def dup_only_report : QualityReport :=
  { total_records := 100, missing_values := [], impossible_values := [],
    duplicates := 50, data_gaps := [] }

/-- C8: the code defines `duplicate_percent = 0.5` ("Alert if >0.5%
duplicates") but `check_quality_alerts` never checks duplicates: a report
whose only issue is a 50 % duplicate rate — far above the threshold — raises
no alert at all, contradicting both the claim and the code's own threshold
table. -/
theorem c8_duplicates_never_alerted :
    check_quality_alerts dup_only_report = [] ∧
    default_quality_thresholds.duplicate_percent <
      ((dup_only_report.duplicates : ℚ) / (dup_only_report.total_records : ℚ)) * 100 := by
  constructor
  · norm_num [check_quality_alerts, dup_only_report, default_quality_thresholds]
  · norm_num [default_quality_thresholds, dup_only_report]

/-! ## Model of `WeatherProcessingPipeline` (`weatherdataprocessor.py` lines 522-609) -/

/-- An exception raised somewhere in the processing chain. -/
inductive PipeErr where
  | err
deriving DecidableEq, Repr

/-- The derived tables the pipeline persists (`processed_weather_data`,
`daily_weather_summary` and the `analysis_*` tables), `none` meaning the table
does not exist yet.  `D` abstracts the tabular payload. -/
structure DerivedTables (D : Type) where
  processed_weather_data : Option D
  daily_weather_summary : Option D
  analysis_tables : List (String × D)
deriving DecidableEq, Repr

/-- `to_sql(name, if_exists=replace)`: overwrite the named table if present,
create it otherwise. -/
def upsert_table {D : Type} (tabs : List (String × D)) (name : String) (df : D) :
    List (String × D) :=
  if tabs.any (fun kv => kv.1 == name) then
    tabs.map fun kv => if kv.1 == name then (name, df) else kv
  else tabs ++ [(name, df)]

/-- The `for name, dataset in analysis_datasets.items()` write loop of
`_store_processed_data`; `failAt` names the first write index the engine
rejects (0 = processed data, 1 = daily summary, 2+k = k-th analysis table). -/
def write_analysis_tables {D : Type} (failAt : Option ℕ) :
    ℕ → List (String × D) → List (String × D) →
    Except PipeErr (List (String × D))
  | _, tabs, [] => Except.ok tabs
  | idx, tabs, (name, df) :: rest =>
    if failAt = some idx then Except.error PipeErr.err
    else write_analysis_tables failAt (idx + 1)
      (upsert_table tabs ("analysis_" ++ name) df) rest

/-- `_store_processed_data` (lines 579-609): within one transaction, replace
the processed-data table, the daily-summary table and each analysis table;
any engine error rolls the transaction back (the caller keeps the old tables)
and re-raises; otherwise the transaction commits. -/
def store_processed_data {D : Type} (tables : DerivedTables D)
    (enhanced daily : D) (datasets : List (String × D)) (failAt : Option ℕ) :
    Except PipeErr (DerivedTables D) :=
  if failAt = some 0 then Except.error PipeErr.err
  else if failAt = some 1 then Except.error PipeErr.err
  else
    match write_analysis_tables failAt 2 tables.analysis_tables datasets with
    | Except.error e => Except.error e
    | Except.ok written =>
      Except.ok { processed_weather_data := some enhanced,
                  daily_weather_summary := some daily,
                  analysis_tables := written }

/-- `process_recent_data` (lines 532-577): load the window, bail out (`False`)
on an empty window, then run assess → clean → derive → aggregate → prepare →
store; the outer `try` catches any exception from any stage and reports
`False`, leaving the stored tables untouched.  The stages are arbitrary
fallible functions, since any of them can raise at run time; `aggregate`
returns the pair `(enhanced_data, daily_agg)` like
`create_aggregated_features`. -/
def process_recent_data {D : Type} (isEmpty : D → Bool)
    (load : Except PipeErr D) (assess : D → Except PipeErr Unit)
    (clean : D → Except PipeErr D) (derive : D → Except PipeErr D)
    (aggregate : D → Except PipeErr (D × D))
    (analyze : D → Except PipeErr (List (String × D)))
    (failAt : Option ℕ) (tables : DerivedTables D) : Bool × DerivedTables D :=
  match load with
  | Except.error _ => (false, tables)
  | Except.ok raw =>
    if isEmpty raw then (false, tables)
    else
      match assess raw with
      | Except.error _ => (false, tables)
      | Except.ok _ =>
        match clean raw with
        | Except.error _ => (false, tables)
        | Except.ok cleaned =>
          match derive cleaned with
          | Except.error _ => (false, tables)
          | Except.ok enhanced =>
            match aggregate enhanced with
            | Except.error _ => (false, tables)
            | Except.ok pair =>
              match analyze pair.1 with
              | Except.error _ => (false, tables)
              | Except.ok datasets =>
                match store_processed_data tables pair.1 pair.2 datasets failAt with
                | Except.error _ => (false, tables)
                | Except.ok t2 => (true, t2)

/-- All three groups of tables replaced with the new run's outputs. -/
def replace_all_tables {D : Type} (tables : DerivedTables D) (enhanced daily : D)
    (datasets : List (String × D)) : DerivedTables D :=
  { processed_weather_data := some enhanced,
    daily_weather_summary := some daily,
    analysis_tables := datasets.foldl
      (fun tabs nd => upsert_table tabs ("analysis_" ++ nd.1) nd.2)
      tables.analysis_tables }

theorem write_analysis_tables_none {D : Type} (ds : List (String × D)) :
    ∀ (idx : ℕ) (tabs : List (String × D)),
    write_analysis_tables none idx tabs ds =
      Except.ok (ds.foldl
        (fun tabs nd => upsert_table tabs ("analysis_" ++ nd.1) nd.2) tabs) := by
  induction ds with
  | nil => intro idx tabs; rfl
  | cons nd rest ih =>
    intro idx tabs
    obtain ⟨name, df⟩ := nd
    rw [write_analysis_tables]
    simp only [List.foldl_cons]
    rw [if_neg (by simp)]
    exact ih (idx + 1) (upsert_table tabs ("analysis_" ++ name) df)

theorem store_processed_data_none {D : Type} (tables : DerivedTables D)
    (enhanced daily : D) (datasets : List (String × D)) :
    store_processed_data tables enhanced daily datasets none =
      Except.ok (replace_all_tables tables enhanced daily datasets) := by
  unfold store_processed_data
  rw [if_neg (by simp), if_neg (by simp),
    write_analysis_tables_none datasets 2 tables.analysis_tables]
  rfl

/-- Every run of the pipeline either fails leaving the tables untouched, or
succeeds with every stage having completed and the store's output adopted. -/
theorem process_recent_data_shape {D : Type} (isEmpty : D → Bool)
    (load : Except PipeErr D) (assess : D → Except PipeErr Unit)
    (clean : D → Except PipeErr D) (derive : D → Except PipeErr D)
    (aggregate : D → Except PipeErr (D × D))
    (analyze : D → Except PipeErr (List (String × D)))
    (failAt : Option ℕ) (tables : DerivedTables D) :
    process_recent_data isEmpty load assess clean derive aggregate analyze
        failAt tables = (false, tables) ∨
    ∃ raw cln enh pair ds t2, load = Except.ok raw ∧ isEmpty raw = false ∧
      assess raw = Except.ok () ∧ clean raw = Except.ok cln ∧
      derive cln = Except.ok enh ∧ aggregate enh = Except.ok pair ∧
      analyze pair.1 = Except.ok ds ∧
      store_processed_data tables pair.1 pair.2 ds failAt = Except.ok t2 ∧
      process_recent_data isEmpty load assess clean derive aggregate analyze
        failAt tables = (true, t2) := by
  cases hl : load with
  | error e => exact Or.inl (by simp [process_recent_data, hl])
  | ok raw =>
  cases hie : isEmpty raw with
  | true => exact Or.inl (by simp [process_recent_data, hl, hie])
  | false =>
  cases ha : assess raw with
  | error e => exact Or.inl (by simp [process_recent_data, hl, hie, ha])
  | ok u =>
  cases hc : clean raw with
  | error e => exact Or.inl (by simp [process_recent_data, hl, hie, ha, hc])
  | ok cln =>
  cases hd : derive cln with
  | error e => exact Or.inl (by simp [process_recent_data, hl, hie, ha, hc, hd])
  | ok enh =>
  cases hg : aggregate enh with
  | error e =>
    exact Or.inl (by simp [process_recent_data, hl, hie, ha, hc, hd, hg])
  | ok pair =>
  cases hn : analyze pair.1 with
  | error e =>
    exact Or.inl (by simp [process_recent_data, hl, hie, ha, hc, hd, hg, hn])
  | ok ds =>
  cases hs : store_processed_data tables pair.1 pair.2 ds failAt with
  | error e =>
    exact Or.inl
      (by simp [process_recent_data, hl, hie, ha, hc, hd, hg, hn, hs])
  | ok t2 =>
    exact Or.inr ⟨raw, cln, enh, pair, ds, t2, rfl, hie, ha, hc, hd, hg, hn, hs,
      by simp [process_recent_data, hl, hie, ha, hc, hd, hg, hn, hs]⟩

/-- C5: an exception in any stage — load, assess, clean, derive, aggregate,
analysis preparation, or the store — makes `process_recent_data` report
failure (`False`) with the derived tables exactly as they were (rollback, no
partial persistence); a run reporting success had every stage complete and
replaced the tables with the store's output, and an error-free store rewrites
all three groups of derived tables with the new run's outputs. -/
theorem c5_pipeline_all_or_nothing {D : Type} (isEmpty : D → Bool)
    (load : Except PipeErr D) (assess : D → Except PipeErr Unit)
    (clean : D → Except PipeErr D) (derive : D → Except PipeErr D)
    (aggregate : D → Except PipeErr (D × D))
    (analyze : D → Except PipeErr (List (String × D)))
    (failAt : Option ℕ) (tables : DerivedTables D) :
    (∀ e, load = Except.error e →
      process_recent_data isEmpty load assess clean derive aggregate analyze
        failAt tables = (false, tables)) ∧
    (∀ raw e, load = Except.ok raw → isEmpty raw = false →
      assess raw = Except.error e →
      process_recent_data isEmpty load assess clean derive aggregate analyze
        failAt tables = (false, tables)) ∧
    (∀ raw e, load = Except.ok raw → isEmpty raw = false →
      assess raw = Except.ok () → clean raw = Except.error e →
      process_recent_data isEmpty load assess clean derive aggregate analyze
        failAt tables = (false, tables)) ∧
    (∀ raw cln e, load = Except.ok raw → isEmpty raw = false →
      assess raw = Except.ok () → clean raw = Except.ok cln →
      derive cln = Except.error e →
      process_recent_data isEmpty load assess clean derive aggregate analyze
        failAt tables = (false, tables)) ∧
    (∀ raw cln enh e, load = Except.ok raw → isEmpty raw = false →
      assess raw = Except.ok () → clean raw = Except.ok cln →
      derive cln = Except.ok enh → aggregate enh = Except.error e →
      process_recent_data isEmpty load assess clean derive aggregate analyze
        failAt tables = (false, tables)) ∧
    (∀ raw cln enh pair e, load = Except.ok raw → isEmpty raw = false →
      assess raw = Except.ok () → clean raw = Except.ok cln →
      derive cln = Except.ok enh → aggregate enh = Except.ok pair →
      analyze pair.1 = Except.error e →
      process_recent_data isEmpty load assess clean derive aggregate analyze
        failAt tables = (false, tables)) ∧
    (∀ raw cln enh pair ds e, load = Except.ok raw → isEmpty raw = false →
      assess raw = Except.ok () → clean raw = Except.ok cln →
      derive cln = Except.ok enh → aggregate enh = Except.ok pair →
      analyze pair.1 = Except.ok ds →
      store_processed_data tables pair.1 pair.2 ds failAt = Except.error e →
      process_recent_data isEmpty load assess clean derive aggregate analyze
        failAt tables = (false, tables)) ∧
    ((process_recent_data isEmpty load assess clean derive aggregate analyze
        failAt tables).1 = false →
      (process_recent_data isEmpty load assess clean derive aggregate analyze
        failAt tables).2 = tables) ∧
    ((process_recent_data isEmpty load assess clean derive aggregate analyze
        failAt tables).1 = true →
      ∃ raw cln enh pair ds t2, load = Except.ok raw ∧ isEmpty raw = false ∧
        assess raw = Except.ok () ∧ clean raw = Except.ok cln ∧
        derive cln = Except.ok enh ∧ aggregate enh = Except.ok pair ∧
        analyze pair.1 = Except.ok ds ∧
        store_processed_data tables pair.1 pair.2 ds failAt = Except.ok t2 ∧
        (process_recent_data isEmpty load assess clean derive aggregate analyze
          failAt tables).2 = t2) ∧
    (∀ (enh d : D) (ds : List (String × D)),
      store_processed_data tables enh d ds none =
        Except.ok (replace_all_tables tables enh d ds)) := by
  refine ⟨?_, ?_, ?_, ?_, ?_, ?_, ?_, ?_, ?_, ?_⟩
  · intro e he
    simp [process_recent_data, he]
  · intro raw e h1 h2 h3
    simp [process_recent_data, h1, h2, h3]
  · intro raw e h1 h2 h3 h4
    simp [process_recent_data, h1, h2, h3, h4]
  · intro raw cln e h1 h2 h3 h4 h5
    simp [process_recent_data, h1, h2, h3, h4, h5]
  · intro raw cln enh e h1 h2 h3 h4 h5 h6
    simp [process_recent_data, h1, h2, h3, h4, h5, h6]
  · intro raw cln enh pair e h1 h2 h3 h4 h5 h6 h7
    simp [process_recent_data, h1, h2, h3, h4, h5, h6, h7]
  · intro raw cln enh pair ds e h1 h2 h3 h4 h5 h6 h7 h8
    simp [process_recent_data, h1, h2, h3, h4, h5, h6, h7, h8]
  · intro hfalse
    rcases process_recent_data_shape isEmpty load assess clean derive aggregate
      analyze failAt tables with heq | ⟨raw, cln, enh, pair, ds, t2, _, _, _, _,
        _, _, _, _, heq⟩
    · rw [heq]
    · rw [heq] at hfalse
      cases hfalse
  · intro htrue
    rcases process_recent_data_shape isEmpty load assess clean derive aggregate
      analyze failAt tables with heq | ⟨raw, cln, enh, pair, ds, t2, h1, h2, h3,
        h4, h5, h6, h7, h8, heq⟩
    · rw [heq] at htrue
      cases htrue
    · exact ⟨raw, cln, enh, pair, ds, t2, h1, h2, h3, h4, h5, h6, h7, h8,
        by rw [heq]⟩
  · intro enh d ds
    exact store_processed_data_none tables enh d ds

/-- A concrete one-stage-failing pipeline instance over `ℕ` frames, used by
the witness: the clean stage raises. -/
theorem c5_witness :
    process_recent_data (fun _ => false) (Except.ok 3)
        (fun _ => Except.ok ()) (fun _ => Except.error PipeErr.err)
        (fun x => Except.ok x) (fun x => Except.ok (x, x))
        (fun _ => Except.ok []) none
        { processed_weather_data := none, daily_weather_summary := none,
          analysis_tables := [] } =
      (false, { processed_weather_data := none, daily_weather_summary := none,
                analysis_tables := [] }) :=
  (c5_pipeline_all_or_nothing (fun _ => false) (Except.ok 3)
      (fun _ => Except.ok ()) (fun _ => Except.error PipeErr.err)
      (fun x => Except.ok x) (fun x => Except.ok (x, x))
      (fun _ => Except.ok []) none
      { processed_weather_data := none, daily_weather_summary := none,
        analysis_tables := [] }).2.2.1
    3 PipeErr.err rfl rfl rfl rfl

/-! ## Model of `clean_weather_data` (`weatherdataprocessor.py` lines 172-235) -/

/-- One row of the loaded readings frame: `timestamp` is the index (set by
`load_data_from_db`), the other fields are the table's columns, nullable
values as `Option`. -/
structure WRow where
  timestamp : ℤ
  id : ℤ
  city : String
  country : String
  temperature : Option ℚ
  feels_like : Option ℚ
  humidity : Option ℚ
  pressure : Option ℚ
  weather_main : Option String
  weather_description : Option String
  wind_speed : Option ℚ
  wind_direction : Option ℚ
  cloudiness : Option ℚ
  visibility : Option ℚ
deriving DecidableEq, Repr

/-- The columns of a row; the index is not a column, so it takes no part in
`drop_duplicates`. -/
def WRow.cols (r : WRow) :=
  (r.id, r.city, r.country, r.temperature, r.feels_like, r.humidity,
   r.pressure, r.weather_main, r.weather_description, r.wind_speed,
   r.wind_direction, r.cloudiness, r.visibility)

/-- pandas `drop_duplicates`: drop every row equal on all columns to an
earlier row, keeping first occurrences. -/
def drop_duplicates_from (seen : List WRow) : List WRow → List WRow
  | [] => []
  | r :: rest =>
    if seen.any (fun s => s.cols == r.cols) then drop_duplicates_from seen rest
    else r :: drop_duplicates_from (r :: seen) rest

def drop_duplicates (df : List WRow) : List WRow := drop_duplicates_from [] df

/-- The numeric columns the cleaning touches. -/
inductive NumCol where
  | temperature
  | feels_like
  | humidity
  | pressure
  | wind_speed
  | visibility
deriving DecidableEq, Repr

def NumCol.get : NumCol → WRow → Option ℚ
  | .temperature, r => r.temperature
  | .feels_like, r => r.feels_like
  | .humidity, r => r.humidity
  | .pressure, r => r.pressure
  | .wind_speed, r => r.wind_speed
  | .visibility, r => r.visibility

def NumCol.set : NumCol → WRow → Option ℚ → WRow
  | .temperature, r, v => { r with temperature := v }
  | .feels_like, r, v => { r with feels_like := v }
  | .humidity, r, v => { r with humidity := v }
  | .pressure, r, v => { r with pressure := v }
  | .wind_speed, r, v => { r with wind_speed := v }
  | .visibility, r, v => { r with visibility := v }

/-- The `impossible_conditions` table of lines 188-194, in insertion order. -/
def impossible_conditions : List (NumCol × (ℚ → Bool)) :=
  [(NumCol.temperature, fun v => decide (v < -100) || decide (150 < v)),
   (NumCol.humidity, fun v => decide (v < 0) || decide (100 < v)),
   (NumCol.pressure, fun v => decide (v < 800) || decide (1200 < v)),
   (NumCol.wind_speed, fun v => decide (v < 0)),
   (NumCol.visibility, fun v => decide (v < 0))]

/-- A pandas comparison against NaN is false, so a null value never tests as
impossible. -/
def opt_cond (cond : ℚ → Bool) : Option ℚ → Bool
  | some v => cond v
  | none => false

/-- `cleaned_df.loc[condition, field] = np.nan`. -/
def null_impossible_col (cond : ℚ → Bool) (col : NumCol) (df : List WRow) :
    List WRow :=
  df.map fun r => if opt_cond cond (col.get r) then col.set r none else r

/-- One pass of the impossible-value loop, with its
`if impossible_count > 0` guard (lines 196-201). -/
def null_impossible_step (df : List WRow) (c : NumCol × (ℚ → Bool)) :
    List WRow :=
  if 0 < df.countP (fun r => opt_cond c.2 (c.1.get r)) then
    null_impossible_col c.2 c.1 df
  else df

def col_values (col : NumCol) (df : List WRow) : List (Option ℚ) :=
  df.map col.get

def set_col (col : NumCol) (df : List WRow) (vals : List (Option ℚ)) :
    List WRow :=
  (df.zip vals).map fun p => col.set p.1 p.2

/-- Fill each null entry of a column from its position, keeping non-null
entries: the common shape of interpolation, forward fill and backward fill. -/
def fill_with (g : ℕ → Option ℚ) (l : List (Option ℚ)) : List (Option ℚ) :=
  l.enum.map fun p =>
    match p.2 with
    | some v => some v
    | none => g p.1

/-- Index–value pairs of the non-null entries of a column. -/
def valid_entries (l : List (Option ℚ)) : List (ℕ × ℚ) :=
  l.enum.filterMap fun p => p.2.map fun v => (p.1, v)

/-- The nearest non-null entry at or before position `i`. -/
def prev_valid (l : List (Option ℚ)) (i : ℕ) : Option (ℕ × ℚ) :=
  ((valid_entries l).filter fun p => decide (p.1 ≤ i)).getLast?

/-- The nearest non-null entry at or after position `i`. -/
def next_valid (l : List (Option ℚ)) (i : ℕ) : Option (ℕ × ℚ) :=
  ((valid_entries l).filter fun p => decide (i ≤ p.1)).head?

/-- `Series.interpolate(method=linear)`: values are treated as equally
spaced; an interior null is filled linearly between the nearest non-null
neighbours, a trailing null takes the last non-null value (the default
forward fill direction), a leading null stays null. -/
def interpolate_linear (l : List (Option ℚ)) : List (Option ℚ) :=
  fill_with
    (fun i =>
      match prev_valid l i, next_valid l i with
      | some jv, some kv =>
        some (jv.2 + (kv.2 - jv.2) *
          (((i : ℚ) - (jv.1 : ℚ)) / ((kv.1 : ℚ) - (jv.1 : ℚ))))
      | some jv, none => some jv.2
      | none, _ => none)
    l

/-- `fillna(method=ffill)`: a null takes the nearest earlier non-null
value. -/
def ffill (l : List (Option ℚ)) : List (Option ℚ) :=
  fill_with (fun i => (prev_valid l i).map fun jv => jv.2) l

/-- `fillna(method=bfill)`: a null takes the nearest later non-null value. -/
def bfill (l : List (Option ℚ)) : List (Option ℚ) :=
  fill_with (fun i => (next_valid l i).map fun kv => kv.2) l

/-- The `numeric_columns` list of line 204, in order. -/
def numeric_columns : List NumCol :=
  [NumCol.temperature, NumCol.feels_like, NumCol.humidity, NumCol.pressure,
   NumCol.wind_speed, NumCol.visibility]

/-- The per-column missing-value handling of lines 206-219, with its
`if missing_count > 0` guard and the 5 % threshold on the missing
fraction. -/
def fill_numeric_col (df : List WRow) (col : NumCol) : List WRow :=
  if 0 < (col_values col df).countP (fun v => v.isNone) then
    if (((col_values col df).countP (fun v => v.isNone) : ℚ) /
        (df.length : ℚ)) < 1/20 then
      set_col col df (interpolate_linear (col_values col df))
    else
      set_col col df (bfill (ffill (col_values col df)))
  else df

/-- The categorical columns of line 222. -/
inductive CatCol where
  | weather_main
  | weather_description
deriving DecidableEq, Repr

def CatCol.get : CatCol → WRow → Option String
  | .weather_main, r => r.weather_main
  | .weather_description, r => r.weather_description

def CatCol.set : CatCol → WRow → Option String → WRow
  | .weather_main, r, v => { r with weather_main := v }
  | .weather_description, r, v => { r with weather_description := v }

def categorical_columns : List CatCol :=
  [CatCol.weather_main, CatCol.weather_description]

/-- Lines 223-228: fill missing categorical values with "Unknown", guarded by
`if missing_count > 0`. -/
def fill_categorical_col (df : List WRow) (col : CatCol) : List WRow :=
  if 0 < df.countP (fun r => (col.get r).isNone) then
    df.map fun r =>
      if (col.get r).isNone then col.set r (some "Unknown") else r
  else df

/-- `clean_weather_data` (lines 172-235): drop exact duplicates; null out
impossible values per the conditions table; handle missing numeric values per
column; fill missing categorical values.  The printed cleaning log carries no
data and is elided. -/
def clean_weather_data (df : List WRow) : List WRow :=
  let d1 := drop_duplicates df
  let d2 := impossible_conditions.foldl null_impossible_step d1
  let d3 := numeric_columns.foldl fill_numeric_col d2
  categorical_columns.foldl fill_categorical_col d3

/-- One numeric column's fill exactly as C6 words it: linear interpolation
when the column's missing fraction is below 5 %, forward- then backward-fill
otherwise (a column with no missing values is unchanged by either branch). -/
def fill_numeric_col_spec (df : List WRow) (col : NumCol) : List WRow :=
  if (((col_values col df).countP (fun v => v.isNone) : ℚ) /
      (df.length : ℚ)) < 1/20 then
    set_col col df (interpolate_linear (col_values col df))
  else
    set_col col df (bfill (ffill (col_values col df)))

/-- The cleaning pipeline exactly as C6 words it: first drop exact duplicate
rows; then set physically-impossible values to null; then fill each numeric
column by the 5 % missing-fraction rule; finally fill missing categorical
values with the sentinel "Unknown". -/
def clean_spec (df : List WRow) : List WRow :=
  let d1 := drop_duplicates df
  let d2 := impossible_conditions.foldl
    (fun acc c => null_impossible_col c.2 c.1 acc) d1
  let d3 := numeric_columns.foldl fill_numeric_col_spec d2
  categorical_columns.foldl
    (fun acc col =>
      acc.map fun r => if (col.get r).isNone then col.set r (some "Unknown") else r)
    d3

/-! ## Refinement lemmas for the cleaning pipeline -/

theorem NumCol.set_get (col : NumCol) (r : WRow) : col.set r (col.get r) = r := by
  cases col <;> rfl

theorem set_col_self (col : NumCol) (df : List WRow) :
    set_col col df (col_values col df) = df := by
  induction df with
  | nil => rfl
  | cons r t ih =>
    simp only [set_col, col_values, List.map_cons, List.zip_cons_cons]
    rw [NumCol.set_get]
    exact congrArg (List.cons r) ih

theorem fill_with_id (g : ℕ → Option ℚ) (l : List (Option ℚ))
    (h : l.countP (fun v => v.isNone) = 0) : fill_with g l = l := by
  rw [List.countP_eq_zero] at h
  unfold fill_with
  have hpt : ∀ p ∈ l.enum,
      (match p.2 with | some v => some v | none => g p.1) = p.2 := by
    intro p hp
    have h2 : p.2 ∈ l := by
      rw [List.mem_enum_iff_getElem?] at hp
      exact List.getElem?_mem hp
    cases hv : p.2 with
    | some v => rfl
    | none =>
      rw [hv] at h2
      have := h none h2
      simp at this
  calc l.enum.map (fun p => match p.2 with | some v => some v | none => g p.1)
      = l.enum.map Prod.snd := List.map_congr_left hpt
    _ = l := List.enum_map_snd l

theorem interpolate_linear_id (l : List (Option ℚ))
    (h : l.countP (fun v => v.isNone) = 0) : interpolate_linear l = l :=
  fill_with_id _ l h

theorem null_impossible_col_id (cond : ℚ → Bool) (col : NumCol)
    (df : List WRow)
    (h : df.countP (fun r => opt_cond cond (col.get r)) = 0) :
    null_impossible_col cond col df = df := by
  rw [List.countP_eq_zero] at h
  unfold null_impossible_col
  conv_rhs => rw [← List.map_id df]
  refine List.map_congr_left ?_
  intro r hr
  have hc := h r hr
  simp only [Bool.not_eq_true] at hc
  simp [hc]

theorem null_step_eq (df : List WRow) (c : NumCol × (ℚ → Bool)) :
    null_impossible_step df c = null_impossible_col c.2 c.1 df := by
  unfold null_impossible_step
  split
  · rfl
  · next h =>
    have h0 : df.countP (fun r => opt_cond c.2 (c.1.get r)) = 0 := by omega
    exact (null_impossible_col_id c.2 c.1 df h0).symm

theorem fill_col_eq (df : List WRow) (col : NumCol) :
    fill_numeric_col df col = fill_numeric_col_spec df col := by
  unfold fill_numeric_col fill_numeric_col_spec
  by_cases h : 0 < (col_values col df).countP (fun v => v.isNone)
  · rw [if_pos h]
  · rw [if_neg h]
    have h0 : (col_values col df).countP (fun v => v.isNone) = 0 := by omega
    rw [h0, if_pos (by norm_num), interpolate_linear_id _ h0, set_col_self]

theorem fill_cat_eq (df : List WRow) (col : CatCol) :
    fill_categorical_col df col =
      df.map fun r =>
        if (col.get r).isNone then col.set r (some "Unknown") else r := by
  unfold fill_categorical_col
  split
  · rfl
  · next h =>
    have h0 : df.countP (fun r => (col.get r).isNone) = 0 := by omega
    rw [List.countP_eq_zero] at h0
    have hmap : df.map (fun r =>
        if (col.get r).isNone then col.set r (some "Unknown") else r) = df := by
      conv_rhs => rw [← List.map_id df]
      refine List.map_congr_left ?_
      intro r hr
      have hc := h0 r hr
      simp only [Bool.not_eq_true] at hc
      simp [hc]
    exact hmap.symm

theorem foldl_congr_fun {α β : Type} {f g : α → β → α}
    (h : ∀ a b, f a b = g a b) :
    ∀ (l : List β) (a : α), l.foldl f a = l.foldl g a := by
  intro l
  induction l with
  | nil => intro a; rfl
  | cons b t ih =>
    intro a
    rw [List.foldl_cons, List.foldl_cons, h]
    exact ih _

/-- C6: `clean_weather_data` performs exactly the claimed steps in the claimed
order — drop exact duplicates, null out the physically-impossible values
(temperature outside [-100,150] °C, humidity outside [0,100] %, pressure
outside [800,1200] hPa, negative wind speed or visibility), fill each numeric
column by linear interpolation when its missing fraction is below 5 % and by
forward-then-backward fill otherwise, and fill missing categoricals with
"Unknown": it coincides with the pipeline written directly from the claim. -/
theorem c6_clean_steps_in_order (df : List WRow) :
    clean_weather_data df = clean_spec df := by
  simp only [clean_weather_data, clean_spec]
  rw [foldl_congr_fun null_step_eq, foldl_congr_fun fill_col_eq,
    foldl_congr_fun fill_cat_eq]

end WeatherVerify
